import Mathlib

/-!
Shallow embedding of the multi-device orchestration core of `app.py`
(gopro-sync): connection registry, readiness evaluation, settings
enforcement and the synchronized record trigger.

Device I/O is modelled by environment functions inside the camera
structures: each BLE call site reads its response from a function of the
attempt index, so the embedded control flow (retry loops, status checks,
short-circuits) is exactly the source's while the transport itself stays
abstract.  Python exceptions are modelled with `Except`; an access to a
local variable that was never assigned (Python's `UnboundLocalError`)
is an explicit error value.
-/

set_option autoImplicit false

namespace GoProSync

/-- Status code of a GoPro BLE response; the source only ever compares a
status against `constants.ErrorCode.SUCCESS`, so all non-success codes are
collapsed into `FAILURE`. -/
inductive ErrorCode where
  | SUCCESS
  | FAILURE
deriving DecidableEq, Repr

/-- A GoPro BLE response (`GoProResp`): a status code plus a payload. -/
structure GoProResp (α : Type) where
  status : ErrorCode
  data : α
deriving DecidableEq, Repr

/-! ### Readiness evaluation (`ready_to_record`, lines 261-340) -/

/-- Environment of one connected camera as seen by `ready_to_record`:
the device-ready status returned on each poll attempt, and the battery
percent / SD-card kilobytes that `get_value` reports (the source reads
`.data` of those two responses without checking their status, so only the
payloads are modelled). -/
structure ReadyCam where
  readyResp : Nat → GoProResp Bool
  battery : Nat
  storage : Nat

/-- Bound of the device-ready polling loop: `for i in range(10)` (line 283). -/
def readinessPollBound : Nat := 10

/-- Seconds slept after each failed device-ready poll: `asyncio.sleep(1)`
(line 291). -/
def readinessSleepSeconds : Nat := 1

/-- Battery check of `verify_battery` (lines 74-81): at most 15 percent is
insufficient. -/
def verify_battery (batt : Nat) : Bool × Nat :=
  if batt ≤ 15 then (false, batt) else (true, batt)

/-- Storage check of `verify_storage` (lines 91-98): at most 1e6 kilobytes
(1 GB) remaining is insufficient. -/
def verify_storage (storage : Nat) : Bool × Nat :=
  if storage ≤ 1000000 then (false, storage) else (true, storage)

/-- The device-ready polling loop of `ready_to_record` (lines 283-291):
poll at attempt index `i` with `fuel` attempts left, accumulating slept
seconds; stops early when a response has SUCCESS status and truthy data.
Returns (number of polls issued, seconds slept, became ready). -/
def pollReadyGo (resp : Nat → GoProResp Bool) : Nat → Nat → Nat → Nat × Nat × Bool
  | 0, i, slept => (i, slept, false)
  | fuel + 1, i, slept =>
    let r := resp i
    if r.status == ErrorCode.SUCCESS && r.data then (i + 1, slept, true)
    else pollReadyGo resp fuel (i + 1) (slept + readinessSleepSeconds)

/-- Per-device outcome of the readiness checks inside `ready_to_record`:
poll count, total sleep, and the three booleans `ready`, `batt_ready`,
`sdcard_ready`; `battQueried` records whether `verify_battery` /
`verify_storage` were reached at all (they run only after a healthy poll). -/
structure DeviceCheck where
  polls : Nat
  sleptSeconds : Nat
  ready : Bool
  battQueried : Bool
  battReady : Bool
  sdReady : Bool
deriving DecidableEq, Repr

/-- One device's pass through the body of the `for name, cam in
connected_cameras.items()` loop of `ready_to_record` (lines 277-291):
poll up to the bound; on a healthy response run the battery and storage
checks, otherwise leave all three booleans false. -/
def checkDevice (c : ReadyCam) : DeviceCheck :=
  let r := pollReadyGo c.readyResp readinessPollBound 0 0
  if r.2.2 then
    { polls := r.1, sleptSeconds := r.2.1, ready := true, battQueried := true,
      battReady := (verify_battery c.battery).1, sdReady := (verify_storage c.storage).1 }
  else
    { polls := r.1, sleptSeconds := r.2.1, ready := false, battQueried := false,
      battReady := false, sdReady := false }

/-- The `(ready, batt_ready, sdcard_ready)` triple the source compares
against `(True, True, True)` (line 293). -/
def deviceTriple (c : ReadyCam) : Bool × Bool × Bool :=
  let d := checkDevice c
  (d.ready, d.battReady, d.sdReady)

/-- `ready_to_record` (lines 261-340): with no cameras connected it prints
a message and returns False; otherwise it counts the devices whose triple
is not `(True, True, True)` (`not_ready`) and returns whether that count
is zero. -/
def ready_to_record (cams : List (String × ReadyCam)) : Bool :=
  if cams.isEmpty then false
  else if cams.countP (fun p => !(decide (deviceTriple p.2 = (true, true, true)))) ≠ 0 then false
  else true

/-- Whether every connected device reports all three readiness booleans
true (the spec's per-device AND, folded over the fleet). -/
def allDevicesReady (cams : List (String × ReadyCam)) : Bool :=
  cams.all (fun p => decide (deviceTriple p.2 = (true, true, true)))

/-! Helper lemmas for the readiness loop. -/

theorem pollReadyGo_all_fail (resp : Nat → GoProResp Bool) :
    ∀ fuel i slept,
      (∀ j, i ≤ j → j < i + fuel → ((resp j).status == ErrorCode.SUCCESS && (resp j).data) = false) →
      pollReadyGo resp fuel i slept = (i + fuel, slept + fuel * readinessSleepSeconds, false) := by
  intro fuel
  induction fuel with
  | zero => intro i slept _; simp [pollReadyGo]
  | succ f ih =>
    intro i slept h
    have h0 : ((resp i).status == ErrorCode.SUCCESS && (resp i).data) = false :=
      h i (Nat.le_refl i) (by omega)
    simp only [pollReadyGo, h0, Bool.false_eq_true, if_false]
    rw [ih (i + 1) (slept + readinessSleepSeconds) (fun j hj1 hj2 => h j (by omega) (by omega))]
    simp [readinessSleepSeconds]
    omega

theorem pollReadyGo_polls_le (resp : Nat → GoProResp Bool) :
    ∀ fuel i slept, (pollReadyGo resp fuel i slept).1 ≤ i + fuel := by
  intro fuel
  induction fuel with
  | zero => intro i slept; simp [pollReadyGo]
  | succ f ih =>
    intro i slept
    simp only [pollReadyGo]
    by_cases hc : ((resp i).status == ErrorCode.SUCCESS && (resp i).data) = true
    · rw [if_pos hc]
      show i + 1 ≤ i + (f + 1)
      omega
    · rw [if_neg (by simp_all)]
      have := ih (i + 1) (slept + readinessSleepSeconds)
      omega

/-- C7: the readiness evaluation polls the device-ready status at most 10
times; when every one of the 10 polls fails the health check, the device
reports `ready = false`, the battery/storage checks are skipped
(`battQueried = false`) and both `batt_ready` and `sdcard_ready` are false,
after 10 polls spaced by 1-second sleeps. -/
theorem readiness_poll_bound_and_short_circuit :
    readinessPollBound = 10 ∧ readinessSleepSeconds = 1 ∧
    (∀ c : ReadyCam, (checkDevice c).polls ≤ readinessPollBound) ∧
    (∀ c : ReadyCam,
      (∀ j, j < readinessPollBound →
        ((c.readyResp j).status == ErrorCode.SUCCESS && (c.readyResp j).data) = false) →
      checkDevice c =
        { polls := 10, sleptSeconds := 10, ready := false, battQueried := false,
          battReady := false, sdReady := false }) := by
  refine ⟨rfl, rfl, ?_, ?_⟩
  · intro c
    have h := pollReadyGo_polls_le c.readyResp readinessPollBound 0 0
    unfold checkDevice
    by_cases hr : (pollReadyGo c.readyResp readinessPollBound 0 0).2.2 = true
    · rw [if_pos hr]
      show (pollReadyGo c.readyResp readinessPollBound 0 0).1 ≤ readinessPollBound
      omega
    · rw [if_neg (by simp_all)]
      show (pollReadyGo c.readyResp readinessPollBound 0 0).1 ≤ readinessPollBound
      omega
  · intro c h
    have hall := pollReadyGo_all_fail c.readyResp readinessPollBound 0 0
      (fun j _ hj2 => h j (by omega))
    unfold checkDevice
    rw [hall]
    rfl

/-- Camera whose device-ready poll always fails, used to instantiate the
readiness bound theorem. -/
def unreachableCam : ReadyCam :=
  { readyResp := fun _ => { status := ErrorCode.FAILURE, data := true },
    battery := 100, storage := 2000000 }

/-- Witness for C7: a camera whose poll always fails ends with 10 polls,
10 seconds of sleep, and all three booleans false with battery/storage
never queried. -/
theorem readiness_poll_bound_and_short_circuit_witness :
    checkDevice unreachableCam =
      { polls := 10, sleptSeconds := 10, ready := false, battQueried := false,
        battReady := false, sdReady := false } :=
  readiness_poll_bound_and_short_circuit.2.2.2 unreachableCam (fun j _ => by rfl)

/-- C3 (amended): `ready_to_record` returns true iff the connected map is
nonempty and every device's three readiness booleans are all true. -/
theorem ready_to_record_iff_nonempty_and_all_ready :
    ∀ cams : List (String × ReadyCam),
      ready_to_record cams = (!cams.isEmpty && allDevicesReady cams) := by
  intro cams
  unfold ready_to_record allDevicesReady
  by_cases he : cams.isEmpty
  · simp [he]
  · have key : (cams.countP (fun p => !(decide (deviceTriple p.2 = (true, true, true)))) = 0)
        ↔ (cams.all (fun p => decide (deviceTriple p.2 = (true, true, true))) = true) := by
      rw [List.countP_eq_zero, List.all_eq_true]
      constructor
      · intro h p hp
        have := h p hp
        simpa using this
      · intro h p hp
        have := h p hp
        simp [this]
    simp only [he, if_false, Bool.not_false, Bool.true_and]
    by_cases hz : cams.countP (fun p => !(decide (deviceTriple p.2 = (true, true, true)))) = 0
    · have h1 : (if cams.countP (fun p => !(decide (deviceTriple p.2 = (true, true, true)))) ≠ 0
          then false else true) = true := by simp [hz]
      rw [h1]
      exact (key.mp hz).symm
    · have h1 : (if cams.countP (fun p => !(decide (deviceTriple p.2 = (true, true, true)))) ≠ 0
          then false else true) = false := by simp [hz]
      rw [h1]
      cases hall : cams.all (fun p => decide (deviceTriple p.2 = (true, true, true)))
      · rfl
      · exact absurd (key.mpr hall) hz

/-- Counterexample for C3 as stated: on the empty connected map every
device vacuously has all three booleans true, yet `ready_to_record`
returns false (the source prints "No cameras are connected!" and
returns False). -/
theorem ready_to_record_empty_map_false :
    ready_to_record [] = false ∧ allDevicesReady [] = true :=
  ⟨rfl, rfl⟩

/-! ### Disconnecting (`disconnect_cameras`, lines 226-258) -/

/-- Protocol-level outcome a handle's `close()` can signal. -/
inductive CloseOutcome where
  | ok
  | protocolError
deriving DecidableEq, Repr

/-- A connected handle as seen by `disconnect_cameras`: only its close
behaviour matters there. -/
structure CloseableCam where
  closeOutcome : CloseOutcome
deriving DecidableEq, Repr

/-- The `await connected_cameras[cam].close()` call of line 250: the
source never inspects what close signals (no status check and no handler
distinguishing a protocol-level error), so the camera's name is appended
to `disconnected` whatever the outcome was. -/
def closeAndReport (name : String) (c : CloseableCam) : String :=
  match c.closeOutcome with
  | .ok => name
  | .protocolError => name

/-- `disconnect_cameras` (lines 226-258): when the map is nonempty, close
every entry collecting the names in `disconnected`, then delete every
collected name from the map; when it is empty, print a message (unless
`quit_flag`) and leave the (empty) map as is.  Returns the resulting map
and the list of names reported as disconnected. -/
def disconnect_cameras (cams : List (String × CloseableCam)) (quit_flag : Bool) :
    List (String × CloseableCam) × List String :=
  if cams.isEmpty then (cams, [])
  else
    ((cams.map (fun p => closeAndReport p.1 p.2)).foldl
        (fun acc n => acc.eraseP (fun q => q.1 == n)) cams,
      cams.map (fun p => closeAndReport p.1 p.2))

theorem closeAndReport_eq_name (name : String) (c : CloseableCam) :
    closeAndReport name c = name := by
  unfold closeAndReport
  cases c.closeOutcome <;> rfl

theorem foldl_eraseP_own_keys :
    ∀ l : List (String × CloseableCam),
      List.foldl (fun acc n => acc.eraseP (fun q => q.1 == n)) l (l.map Prod.fst) = [] := by
  intro l
  induction l with
  | nil => rfl
  | cons p t ih =>
    simp only [List.map_cons, List.foldl_cons]
    rw [List.eraseP_cons_of_pos (by simp)]
    exact ih

/-- C2: for every initial connected map and either quit flag,
`disconnect_cameras` returns with the map empty, and the per-device
disconnect report lists every camera name — the close outcome (including
a protocol-level error) is never consulted. -/
theorem disconnect_cameras_empties_map :
    ∀ (cams : List (String × CloseableCam)) (quit_flag : Bool),
      (disconnect_cameras cams quit_flag).1 = [] ∧
      (disconnect_cameras cams quit_flag).2 = cams.map Prod.fst := by
  intro cams quit_flag
  unfold disconnect_cameras
  by_cases he : cams.isEmpty
  · have hnil : cams = [] := by simpa using he
    subst hnil
    exact ⟨rfl, rfl⟩
  · rw [if_neg he]
    have hmap : cams.map (fun p => closeAndReport p.1 p.2) = cams.map Prod.fst :=
      List.map_congr_left (fun p _ => closeAndReport_eq_name p.1 p.2)
    rw [hmap]
    exact ⟨foldl_eraseP_own_keys cams, rfl⟩

/-! ### Connecting (`connect_camera`, lines 160-223) -/

/-- Outcome of `WirelessGoPro(target=name).open()`: success, or one of the
two typed failures the source catches (`FailedToFindDevice`,
`ConnectFailed`). -/
inductive OpenResult where
  | opened
  | notFound
  | connectFailed
deriving DecidableEq, Repr

/-- The handle stored into `connected_cameras[name]` on a successful open:
a `WirelessGoPro` created with `target=name`. -/
structure GoProHandle where
  target : String
deriving DecidableEq, Repr

/-- Body of the `connect_prompt == "All"` branch (lines 186-201): iterate
over the found device names; a name already in the map is skipped with an
"already connected" message; otherwise open a handle — on success append
the entry to the map, on either typed failure append the name to
`missed_connections` and keep going. -/
def connectAllGo (openRes : String → OpenResult) :
    List String → List (String × GoProHandle) → List String →
      List (String × GoProHandle) × List String
  | [], conn, missed => (conn, missed)
  | n :: ns, conn, missed =>
    if (conn.lookup n).isSome then connectAllGo openRes ns conn missed
    else
      match openRes n with
      | .opened => connectAllGo openRes ns (conn ++ [(n, GoProHandle.mk n)]) missed
      | .notFound => connectAllGo openRes ns conn (missed ++ [n])
      | .connectFailed => connectAllGo openRes ns conn (missed ++ [n])

/-- One pass of the `while retry:` body of `connect_camera` (lines
183-219): the "All" prompt walks every found name, any other prompt
connects that single name unless it is already present. -/
def connectPass (openRes : String → OpenResult) (found : List String)
    (connect_prompt : String) (conn : List (String × GoProHandle)) :
    List (String × GoProHandle) × List String :=
  if connect_prompt = "All" then connectAllGo openRes found conn []
  else if (conn.lookup connect_prompt).isSome then (conn, [])
  else
    match openRes connect_prompt with
    | .opened => (conn ++ [(connect_prompt, { target := connect_prompt })], [])
    | .notFound => (conn, [connect_prompt])
    | .connectFailed => (conn, [connect_prompt])

/-- The `while retry:` loop of `connect_camera` (lines 181-223): after a
pass, if some connections were missed the operator is asked whether to
retry; the answers are supplied as a list (an exhausted list reads as
declining). -/
def connectLoopAux (openRes : String → OpenResult) (found : List String)
    (connect_prompt : String) :
    List Bool → List (String × GoProHandle) → List (String × GoProHandle) × List String
  | [], conn => connectPass openRes found connect_prompt conn
  | a :: rest, conn =>
    let r := connectPass openRes found connect_prompt conn
    if r.2.isEmpty then r
    else if a then connectLoopAux openRes found connect_prompt rest r.1
    else r

/-- `connect_camera` (lines 160-223): the "None" prompt does nothing,
anything else runs the retry loop. -/
def connect_camera (openRes : String → OpenResult) (found : List String)
    (connect_prompt : String) (retryAnswers : List Bool)
    (conn : List (String × GoProHandle)) : List (String × GoProHandle) × List String :=
  if connect_prompt = "None" then (conn, [])
  else connectLoopAux openRes found connect_prompt retryAnswers conn

theorem lookup_append {β : Type} (k : String) :
    ∀ (l1 l2 : List (String × β)),
      (l1 ++ l2).lookup k =
        (match l1.lookup k with
         | some v => some v
         | none => l2.lookup k) := by
  intro l1 l2
  induction l1 with
  | nil => rfl
  | cons p t ih =>
    obtain ⟨a, b⟩ := p
    simp only [List.cons_append, List.lookup]
    cases h : (k == a)
    · simpa using ih
    · rfl

theorem connectAllGo_lookup_present (openRes : String → OpenResult) :
    ∀ (ns : List String) (conn : List (String × GoProHandle)) (missed : List String)
      (k : String), (conn.lookup k).isSome →
      ((connectAllGo openRes ns conn missed).1).lookup k = conn.lookup k := by
  intro ns
  induction ns with
  | nil => intro conn missed k _; rfl
  | cons n t ih =>
    intro conn missed k hk
    simp only [connectAllGo]
    by_cases hn : ((conn.lookup n).isSome : Prop)
    · rw [if_pos hn]; exact ih conn missed k hk
    · rw [if_neg hn]
      cases ho : openRes n with
      | opened =>
        have hext : ((conn ++ [(n, GoProHandle.mk n)]).lookup k) = conn.lookup k := by
          rw [lookup_append]
          obtain ⟨v, hv⟩ := Option.isSome_iff_exists.mp hk
          rw [hv]
        have hk' : (((conn ++ [(n, GoProHandle.mk n)]).lookup k).isSome : Prop) := by
          rw [hext]; exact hk
        rw [ih _ missed k hk', hext]
      | notFound => exact ih conn (missed ++ [n]) k hk
      | connectFailed => exact ih conn (missed ++ [n]) k hk

theorem connectAllGo_lookup_absent (openRes : String → OpenResult) :
    ∀ (ns : List String) (conn : List (String × GoProHandle)) (missed : List String)
      (k : String), conn.lookup k = none → openRes k ≠ .opened →
      ((connectAllGo openRes ns conn missed).1).lookup k = none := by
  intro ns
  induction ns with
  | nil => intro conn missed k hk _; exact hk
  | cons n t ih =>
    intro conn missed k hk hopen
    simp only [connectAllGo]
    by_cases hn : ((conn.lookup n).isSome : Prop)
    · rw [if_pos hn]; exact ih conn missed k hk hopen
    · rw [if_neg hn]
      cases ho : openRes n with
      | opened =>
        have hne : k ≠ n := by
          intro h; subst h; exact hopen ho
        have hext : ((conn ++ [(n, GoProHandle.mk n)]).lookup k) = none := by
          rw [lookup_append, hk]
          simp [List.lookup, beq_eq_false_iff_ne.mpr hne]
        exact ih _ missed k hext hopen
      | notFound => exact ih conn (missed ++ [n]) k hk hopen
      | connectFailed => exact ih conn (missed ++ [n]) k hk hopen

theorem connectAllGo_lookup_opened (openRes : String → OpenResult) :
    ∀ (ns : List String) (conn : List (String × GoProHandle)) (missed : List String)
      (k : String), k ∈ ns → openRes k = .opened →
      ((((connectAllGo openRes ns conn missed).1).lookup k).isSome : Prop) := by
  intro ns
  induction ns with
  | nil => intro conn missed k hk _; exact absurd hk (List.not_mem_nil k)
  | cons n t ih =>
    intro conn missed k hk hopen
    simp only [connectAllGo]
    by_cases hn : ((conn.lookup n).isSome : Prop)
    · rw [if_pos hn]
      rcases List.mem_cons.mp hk with rfl | hkt
      · rw [connectAllGo_lookup_present openRes t conn missed k hn]; exact hn
      · exact ih conn missed k hkt hopen
    · rw [if_neg hn]
      cases ho : openRes n with
      | opened =>
        rcases List.mem_cons.mp hk with rfl | hkt
        · have hknone : conn.lookup k = none := Option.not_isSome_iff_eq_none.mp hn
          have hsome : (((conn ++ [(k, GoProHandle.mk k)]).lookup k).isSome : Prop) := by
            rw [lookup_append, hknone]
            simp [List.lookup]
          rw [connectAllGo_lookup_present openRes t _ missed k hsome]
          exact hsome
        · exact ih _ missed k hkt hopen
      | notFound =>
        rcases List.mem_cons.mp hk with rfl | hkt
        · rw [hopen] at ho; exact absurd ho (by simp)
        · exact ih conn (missed ++ [n]) k hkt hopen
      | connectFailed =>
        rcases List.mem_cons.mp hk with rfl | hkt
        · rw [hopen] at ho; exact absurd ho (by simp)
        · exact ih conn (missed ++ [n]) k hkt hopen

theorem connectAllGo_missed (openRes : String → OpenResult) :
    ∀ (ns : List String) (conn : List (String × GoProHandle)) (missed : List String),
      (connectAllGo openRes ns conn missed).2 =
        missed ++ ns.filter
          (fun n => (conn.lookup n).isNone && decide (openRes n ≠ .opened)) := by
  intro ns
  induction ns with
  | nil => intro conn missed; simp [connectAllGo]
  | cons n t ih =>
    intro conn missed
    simp only [connectAllGo]
    by_cases hn : ((conn.lookup n).isSome : Prop)
    · rw [if_pos hn]
      obtain ⟨v, hv⟩ := Option.isSome_iff_exists.mp hn
      have hpred : ((conn.lookup n).isNone && decide (openRes n ≠ .opened)) = false := by
        simp [hv]
      rw [List.filter_cons, hpred]
      simp only [Bool.false_eq_true, if_false]
      exact ih conn missed
    · rw [if_neg hn]
      have hknone : conn.lookup n = none := Option.not_isSome_iff_eq_none.mp hn
      cases ho : openRes n with
      | opened =>
        have hpred : ((conn.lookup n).isNone && decide (openRes n ≠ .opened)) = false := by
          simp [ho]
        rw [List.filter_cons, hpred]
        simp only [Bool.false_eq_true, if_false]
        rw [ih _ missed]
        have hfil : t.filter
              (fun m => ((conn ++ [(n, GoProHandle.mk n)]).lookup m).isNone &&
                decide (openRes m ≠ .opened)) =
            t.filter (fun m => (conn.lookup m).isNone && decide (openRes m ≠ .opened)) := by
          apply List.filter_congr
          intro m _
          rw [lookup_append]
          cases hm : conn.lookup m
          · cases hmn : (m == n)
            · simp [List.lookup, hmn]
            · have : m = n := by simpa using hmn
              subst this
              simp [List.lookup, hmn, ho]
          · simp
        rw [hfil]
      | notFound =>
        have hpred : ((conn.lookup n).isNone && decide (openRes n ≠ .opened)) = true := by
          simp [hknone, ho]
        rw [List.filter_cons, hpred]
        simp only [if_true]
        rw [ih conn (missed ++ [n])]
        simp
      | connectFailed =>
        have hpred : ((conn.lookup n).isNone && decide (openRes n ≠ .opened)) = true := by
          simp [hknone, ho]
        rw [List.filter_cons, hpred]
        simp only [if_true]
        rw [ih conn (missed ++ [n])]
        simp

/-- C9: in a connect over many names, an already-present name is left
untouched (no-op success), a name whose open fails is never inserted, a
failure on one name does not prevent every openable name from ending up
connected, and the missed-connections report is exactly the list of names
that were absent and failed to open. -/
theorem connect_no_op_no_mutation_and_partial_failure :
    ∀ (openRes : String → OpenResult) (found : List String)
      (conn : List (String × GoProHandle)),
      (∀ k, (conn.lookup k).isSome →
        ((connectAllGo openRes found conn []).1).lookup k = conn.lookup k) ∧
      (∀ k, conn.lookup k = none → openRes k ≠ .opened →
        ((connectAllGo openRes found conn []).1).lookup k = none) ∧
      (∀ k, k ∈ found → openRes k = .opened →
        ((((connectAllGo openRes found conn []).1).lookup k).isSome : Prop)) ∧
      (connectAllGo openRes found conn []).2 =
        found.filter (fun n => (conn.lookup n).isNone && decide (openRes n ≠ .opened)) :=
  fun openRes found conn =>
    ⟨fun k hk => connectAllGo_lookup_present openRes found conn [] k hk,
     fun k hk ho => connectAllGo_lookup_absent openRes found conn [] k hk ho,
     fun k hk ho => connectAllGo_lookup_opened openRes found conn [] k hk ho,
     connectAllGo_missed openRes found conn []⟩

/-- Open behaviour used to instantiate the connect theorem: the name "B"
cannot be found, every other name opens. -/
def sampleOpen : String → OpenResult :=
  fun n => if n = "B" then .notFound else .opened

/-- Initial connected map used to instantiate the connect theorem. -/
def sampleConn : List (String × GoProHandle) := [("A", { target := "A" })]

/-- Witness for C9 over found names ["A", "B", "C"] with "A" already
connected and "B" failing to open: "A" keeps its entry, "B" is never
inserted, "C" gets connected, and exactly ["B"] is reported missed. -/
theorem connect_no_op_no_mutation_and_partial_failure_witness :
    ((connectAllGo sampleOpen ["A", "B", "C"] sampleConn []).1).lookup "A" =
        sampleConn.lookup "A" ∧
    ((connectAllGo sampleOpen ["A", "B", "C"] sampleConn []).1).lookup "B" = none ∧
    ((((connectAllGo sampleOpen ["A", "B", "C"] sampleConn []).1).lookup "C").isSome : Prop) ∧
    (connectAllGo sampleOpen ["A", "B", "C"] sampleConn []).2 = ["B"] := by
  have h := connect_no_op_no_mutation_and_partial_failure sampleOpen ["A", "B", "C"] sampleConn
  refine ⟨h.1 "A" (by decide), h.2.1 "B" (by decide) (by decide),
    h.2.2.1 "C" (by decide) (by decide), ?_⟩
  rw [h.2.2.2]
  decide

/-! ### The synchronized record trigger (`record`, lines 343-418) -/

/-- A keyboard key as seen by `_on_release`: the two recognized edges
(Page Down confirms, Esc cancels) and everything else. -/
inductive Key where
  | page_down
  | esc
  | other (code : Nat)
deriving DecidableEq, Repr

/-- `_on_release` (lines 362-369): Page Down stops the listener; Esc sets
the nonlocal `cancel_flag` and stops the listener; any other key only
logs.  Returns the new cancel flag and `some false` when the callback
returns False (stopping the listener), `none` when it falls through. -/
def _on_release (cancel_flag : Bool) (k : Key) : Bool × Option Bool :=
  match k with
  | .page_down => (cancel_flag, some false)
  | .esc => (true, some false)
  | .other _ => (cancel_flag, none)

/-- A `keyboard.Listener(...)` + `listener.join()` block: feed the
release events to `_on_release` until it stops the listener.  Returns the
cancel flag at the stop together with the unconsumed input, or `none` when
the input is exhausted without a stopping key (the join blocks forever). -/
def listenerRun (cancel_flag : Bool) : List Key → Option (Bool × List Key)
  | [] => none
  | k :: rest =>
    match (_on_release cancel_flag k).2 with
    | some _ => some ((_on_release cancel_flag k).1, rest)
    | none => listenerRun (_on_release cancel_flag k).1 rest

/-- Observable actions of one `record` call. -/
inductive REvent where
  | startCmd (name : String)
  | recordingStarted
  | stopCmd (name : String)
  | recordingCancelled
deriving DecidableEq, Repr

/-- `record` (lines 343-418): wait for the start trigger; if the cancel
flag was set, print "Recording cancelled." and return; otherwise dispatch
`set_shutter(ENABLE)` to every connected camera inside a TaskGroup (all
tasks are awaited when the group exits), log "Recording started.", wait
for the stop trigger with the same `_on_release` callback, and dispatch
`set_shutter(DISABLE)` to every connected camera.  Returns the events in
program order plus whether the call returned (false = still blocked in a
listener join). -/
def record (cams : List (String × GoProHandle)) (keys : List Key) :
    List REvent × Bool :=
  match listenerRun false keys with
  | none => ([], false)
  | some (cancelFlag, rest) =>
    if cancelFlag then ([.recordingCancelled], true)
    else
      match listenerRun cancelFlag rest with
      | none => (cams.map (fun p => REvent.startCmd p.1) ++ [.recordingStarted], false)
      | some _ =>
        (cams.map (fun p => REvent.startCmd p.1) ++ [.recordingStarted] ++
          cams.map (fun p => REvent.stopCmd p.1), true)

/-- A key neither of the two recognized edges neither stops a listener nor
changes the cancel flag; a whole run of such keys leaves the join blocked,
and a recognized edge after them stops the listener with the flag set
exactly when the edge was Esc. -/
theorem listenerRun_skips_unrecognized :
    ∀ (others : List Key), (∀ x ∈ others, x ≠ Key.page_down ∧ x ≠ Key.esc) →
      ∀ (cf : Bool),
        listenerRun cf others = none ∧
        (∀ rest, listenerRun cf (others ++ Key.page_down :: rest) = some (cf, rest)) ∧
        (∀ rest, listenerRun cf (others ++ Key.esc :: rest) = some (true, rest)) := by
  intro others
  induction others with
  | nil =>
    intro _ cf
    exact ⟨rfl, fun rest => rfl, fun rest => rfl⟩
  | cons x xs ih =>
    intro h cf
    have hx := h x (List.mem_cons_self x xs)
    have hxs := fun y hy => h y (List.mem_cons_of_mem x hy)
    have hcb : _on_release cf x = (cf, none) := by
      cases x with
      | page_down => exact absurd rfl hx.1
      | esc => exact absurd rfl hx.2
      | other c => rfl
    refine ⟨?_, fun rest => ?_, fun rest => ?_⟩
    · show listenerRun cf (x :: xs) = none
      simp only [listenerRun, hcb]
      exact (ih hxs cf).1
    · show listenerRun cf (x :: (xs ++ Key.page_down :: rest)) = some (cf, rest)
      simp only [listenerRun, hcb]
      exact (ih hxs cf).2.1 rest
    · show listenerRun cf (x :: (xs ++ Key.esc :: rest)) = some (true, rest)
      simp only [listenerRun, hcb]
      exact (ih hxs cf).2.2 rest

theorem take_start_prefix (cams : List (String × GoProHandle)) :
    ∀ tail : List REvent,
      ((cams.map (fun p => REvent.startCmd p.1) ++ [REvent.recordingStarted]) ++ tail).take
          (cams.length + 1) =
        cams.map (fun p => REvent.startCmd p.1) ++ [REvent.recordingStarted] := by
  intro tail
  have hlen : (cams.map (fun p => REvent.startCmd p.1) ++ [REvent.recordingStarted]).length
      = cams.length + 1 := by simp
  rw [← hlen, List.take_left]

/-- C6: with only unrecognized input before the edge, an Esc (cancel) edge
while waiting for the start trigger makes `record` return having
dispatched no device command at all, and a Page Down (confirm) edge makes
the emitted trace begin with a start command to every connected camera
followed by the recording-started transition — the transition appears only
after every dispatched start call has been awaited (the TaskGroup joins
before it). -/
theorem record_cancel_zero_commands_confirm_full_fanout :
    ∀ (cams : List (String × GoProHandle)) (others rest : List Key),
      (∀ x ∈ others, x ≠ Key.page_down ∧ x ≠ Key.esc) →
      record cams (others ++ Key.esc :: rest) = ([.recordingCancelled], true) ∧
      (record cams (others ++ Key.page_down :: rest)).1.take (cams.length + 1) =
        cams.map (fun p => REvent.startCmd p.1) ++ [.recordingStarted] := by
  intro cams others rest h
  have hl := listenerRun_skips_unrecognized others h false
  constructor
  · unfold record
    rw [hl.2.2 rest]
    rfl
  · unfold record
    rw [hl.2.1 rest]
    simp only [Bool.false_eq_true, if_false]
    cases hstop : listenerRun false rest with
    | none =>
      have := take_start_prefix cams []
      rw [List.append_nil] at this
      exact this
    | some v => exact take_start_prefix cams (cams.map (fun p => REvent.stopCmd p.1))

/-- Camera map used to instantiate the trigger theorems. -/
def demoCams : List (String × GoProHandle) :=
  [("Cam1", GoProHandle.mk "Cam1"), ("Cam2", GoProHandle.mk "Cam2")]

/-- Witness for C6: with two connected cameras, a noise key then Esc
cancels with no commands, and a noise key then Page Down starts with a
start command to each camera before the recording-started transition. -/
theorem record_cancel_zero_commands_confirm_full_fanout_witness :
    record demoCams [Key.other 7, Key.esc] = ([.recordingCancelled], true) ∧
    (record demoCams [Key.other 7, Key.page_down]).1.take 3 =
      [REvent.startCmd "Cam1", REvent.startCmd "Cam2", REvent.recordingStarted] :=
  record_cancel_zero_commands_confirm_full_fanout demoCams [Key.other 7] []
    (by intro x hx; simp at hx; simp [hx])

/-- Counterexample for C4 as stated: once recording has started, an Esc
release — an input other than the confirm edge — is not ignored: it stops
the stop-trigger wait exactly like Page Down does, after which the stop
fan-out runs. -/
theorem record_stop_wait_exits_on_esc :
    record [("Cam1", GoProHandle.mk "Cam1")] [Key.page_down, Key.esc] =
      ([REvent.startCmd "Cam1", REvent.recordingStarted, REvent.stopCmd "Cam1"], true) :=
  rfl

/-- C4 (amended): once recording has started, the stop wait stops on
either recognized edge — Page Down or Esc — and in both cases the stop
command is dispatched to every camera (there is indeed no cancel path out
of recording: the outcome is always the stop fan-out); inputs other than
those two edges are ignored and the wait continues. -/
theorem record_stop_wait_confirm_or_esc :
    ∀ (cams : List (String × GoProHandle)) (others rest : List Key) (k : Key),
      (∀ x ∈ others, x ≠ Key.page_down ∧ x ≠ Key.esc) →
      (k = Key.page_down ∨ k = Key.esc) →
      record cams (Key.page_down :: (others ++ k :: rest)) =
        (cams.map (fun p => REvent.startCmd p.1) ++ [.recordingStarted] ++
          cams.map (fun p => REvent.stopCmd p.1), true) ∧
      record cams (Key.page_down :: others) =
        (cams.map (fun p => REvent.startCmd p.1) ++ [.recordingStarted], false) := by
  intro cams others rest k h hk
  have hl := listenerRun_skips_unrecognized others h false
  have hfirst : ∀ tail, listenerRun false (Key.page_down :: tail) = some (false, tail) :=
    fun tail => rfl
  constructor
  · unfold record
    rw [hfirst (others ++ k :: rest)]
    simp only [Bool.false_eq_true, if_false]
    rcases hk with rfl | rfl
    · rw [hl.2.1 rest]
    · rw [hl.2.2 rest]
  · unfold record
    rw [hfirst others]
    simp only [Bool.false_eq_true, if_false]
    rw [hl.1]

/-- Witness for C4 (amended): with one connected camera, noise then Esc in
the stop wait dispatches the stop command, and noise alone leaves the stop
wait blocked after the start fan-out. -/
theorem record_stop_wait_confirm_or_esc_witness :
    record [("Cam1", GoProHandle.mk "Cam1")]
        (Key.page_down :: ([Key.other 3] ++ Key.esc :: [])) =
      ([REvent.startCmd "Cam1", REvent.recordingStarted, REvent.stopCmd "Cam1"], true) ∧
    record [("Cam1", GoProHandle.mk "Cam1")] (Key.page_down :: [Key.other 3]) =
      ([REvent.startCmd "Cam1", REvent.recordingStarted], false) :=
  record_stop_wait_confirm_or_esc [("Cam1", GoProHandle.mk "Cam1")] [Key.other 3] [] Key.esc
    (by intro x hx; simp at hx; simp [hx]) (Or.inr rfl)

/-! ### Settings enforcement (`enforce_camera_settings` and the per-model
settings builders, lines 421-625) -/

/-- Python exception escaping a settings call: the explicit
`raise ValueError(...)` of line 457 (carrying the unsupported model
string), or an `UnboundLocalError` for reading a local variable that was
never assigned (carrying the variable name). -/
inductive PyError where
  | valueError (model : String)
  | unboundLocalError (var : String)
deriving DecidableEq, Repr

/-- Anti-flicker value returned by `anti_flicker.get_value()`: the HERO12
constants `NUM_60HZ`/`NUM_50HZ`, the HERO13 constants `NTSC`/`PAL`, or
any other value. -/
inductive AntiFlicker where
  | NUM_60HZ
  | NUM_50HZ
  | NTSC
  | PAL
  | OTHER (code : Nat)
deriving DecidableEq, Repr

/-- Video-lens (field of view) value: the default `LINEAR` or any other
value. -/
inductive VideoLens where
  | LINEAR
  | OTHER (code : Nat)
deriving DecidableEq, Repr

/-- HERO12 `FramesPerSecond` targets selected by the anti-flicker lookup. -/
inductive FramesPerSecond where
  | NUM_30_0
  | NUM_50_0
deriving DecidableEq, Repr

/-- HERO13 `FrameRate` targets selected by the anti-flicker lookup. -/
inductive FrameRate where
  | NUM_30_0
  | NUM_50_0
deriving DecidableEq, Repr

/-- Target values appearing in the settings dictionaries of
`_hero12_settings` / `_hero13_settings`. -/
inductive SettingValue where
  | presetGroupVideo
  | controlsPRO
  | profilesSTANDARD
  | videoLens (v : VideoLens)
  | videoAspectRatio_16_9
  | videoFraming_16_9
  | videoResolution_1080
  | framesPerSecond (v : FramesPerSecond)
  | frameRate (v : FrameRate)
  | hypersmoothOFF
  | hindsightOFF
  | bitDepth_8
  | videoBitRateHIGH
  | autoPowerDown_30min
deriving DecidableEq, Repr

/-- Environment of one camera as seen by `enforce_camera_settings`: its
model string, the response of each BLE call site as a function of the
attempt index, and the operator's answer to the field-of-view prompt. -/
structure Camera where
  model : String
  loadPresetResp : Nat → ErrorCode
  antiFlickerResp : Nat → GoProResp AntiFlicker
  videoLensResp : Nat → GoProResp VideoLens
  lensPromptYes : Bool
  setResp : String → Nat → ErrorCode

/-- Default of the `retries` parameter of `enforce_camera_settings`
(line 422). -/
def enforceDefaultRetries : Nat := 5

/-- `_check_setting_get_response` (lines 600-612): logs, and reports
whether the get response has SUCCESS status. -/
def _check_setting_get_response {α : Type} (resp : GoProResp α)
    (_setting : String) (_name : String) (_retry : Nat) : Bool :=
  if resp.status ≠ ErrorCode.SUCCESS then false else true

/-- `_check_setting_set_response` (lines 615-625): logs, and reports
whether the set response has SUCCESS status. -/
def _check_setting_set_response {α : Type} (resp : GoProResp α)
    (_setting : String) (_name : String) (_retry : Nat) : Bool :=
  if resp.status ≠ ErrorCode.SUCCESS then false else true

/-- A bounded immediate-retry loop over a success predicate (shape of the
`for i in range(retries): ... if ok: break` loops of
`enforce_camera_settings`): attempt index `i` with `fuel` attempts left;
returns (number of attempts issued, succeeded).  There is no sleep between
attempts. -/
def setRetryGo (ok : Nat → Bool) : Nat → Nat → Nat × Bool
  | 0, i => (i, false)
  | fuel + 1, i => if ok i then (i + 1, true) else setRetryGo ok fuel (i + 1)

/-- Run a bounded immediate-retry loop from attempt 0. -/
def setRetry (ok : Nat → Bool) (retries : Nat) : Nat × Bool :=
  setRetryGo ok retries 0

/-- The anti-flicker pre-read loop of `_hero12_settings` (lines 483-498):
on the first successful read, `fps` is assigned from the lookup
`NUM_60HZ → 30 fps`, `NUM_50HZ → 50 fps` and stays unassigned on any other
value; while reads fail the loop just retries.  Returns the final value of
the local `fps` (`none` = never assigned). -/
def antiFlicker12Go (resp : Nat → GoProResp AntiFlicker) (name : String) :
    Nat → Nat → Option FramesPerSecond
  | 0, _ => none
  | fuel + 1, i =>
    if _check_setting_get_response (resp i) "Anti_Flicker" name i then
      match (resp i).data with
      | .NUM_60HZ => some .NUM_30_0
      | .NUM_50HZ => some .NUM_50_0
      | _ => none
    else antiFlicker12Go resp name fuel (i + 1)

/-- The anti-flicker pre-read loop of `_hero13_settings` (lines 543-558):
as for HERO12 but with the lookup `NTSC → 30`, `PAL → 50` into
`frame_rate`. -/
def antiFlicker13Go (resp : Nat → GoProResp AntiFlicker) (name : String) :
    Nat → Nat → Option FrameRate
  | 0, _ => none
  | fuel + 1, i =>
    if _check_setting_get_response (resp i) "Anti_Flicker" name i then
      match (resp i).data with
      | .NTSC => some .NUM_30_0
      | .PAL => some .NUM_50_0
      | _ => none
    else antiFlicker13Go resp name fuel (i + 1)

/-- The video-lens pre-read loop shared by `_hero12_settings` (lines
501-520) and `_hero13_settings` (lines 561-580): each iteration first
assigns `lens = resp.data`, then checks the status; on a successful read
of a non-LINEAR lens the operator is prompted and `lens` is overwritten
with LINEAR only on a "Yes".  Returns the final value of the local `lens`
(`none` = loop never ran) and whether the operator was prompted. -/
def lensLoopGo (resp : Nat → GoProResp VideoLens) (name : String) (answerYes : Bool) :
    Nat → Nat → Option VideoLens → Option VideoLens × Bool
  | 0, _, lens => (lens, false)
  | fuel + 1, i, _ =>
    if _check_setting_get_response (resp i) "Video_Lens" name i then
      if (resp i).data ≠ VideoLens.LINEAR then
        (if answerYes then some VideoLens.LINEAR else some (resp i).data, true)
      else (some (resp i).data, false)
    else lensLoopGo resp name answerYes fuel (i + 1) (some (resp i).data)

/-- The settings dictionary literal of `_hero12_settings` (lines 523-536),
in source order. -/
def hero12Plan (lens : VideoLens) (fps : FramesPerSecond) : List (String × SettingValue) :=
  [("load_preset_group", .presetGroupVideo),
   ("controls", .controlsPRO),
   ("profiles", .profilesSTANDARD),
   ("video_lens", .videoLens lens),
   ("video_aspect_ratio", .videoAspectRatio_16_9),
   ("video_resolution", .videoResolution_1080),
   ("frames_per_second", .framesPerSecond fps),
   ("hypersmooth", .hypersmoothOFF),
   ("hindsight", .hindsightOFF),
   ("bit_depth", .bitDepth_8),
   ("video_bit_rate", .videoBitRateHIGH),
   ("auto_power_down", .autoPowerDown_30min)]

/-- The settings dictionary literal of `_hero13_settings` (lines 583-595),
in source order. -/
def hero13Plan (lens : VideoLens) (fr : FrameRate) : List (String × SettingValue) :=
  [("load_preset_group", .presetGroupVideo),
   ("controls", .controlsPRO),
   ("profiles", .profilesSTANDARD),
   ("video_lens", .videoLens lens),
   ("video_framing", .videoFraming_16_9),
   ("video_resolution", .videoResolution_1080),
   ("frame_rate", .frameRate fr),
   ("hypersmooth", .hypersmoothOFF),
   ("hindsight", .hindsightOFF),
   ("bit_depth", .bitDepth_8),
   ("video_bit_rate", .videoBitRateHIGH)]

/-- Result of a per-model settings builder: the plan and whether the
field-of-view prompt was shown. -/
structure HeroSettings where
  plan : List (String × SettingValue)
  promptedLens : Bool
deriving DecidableEq, Repr

/-- `_hero12_settings` (lines 481-538): run the two pre-read loops and
build the settings dictionary.  The dictionary literal reads the locals
`lens` (entry "video_lens") before `fps` (entry "frames_per_second"), so
whichever of the two was never assigned first raises `UnboundLocalError`
at construction. -/
def _hero12_settings (name : String) (cam : Camera) (retries : Nat) :
    Except PyError HeroSettings :=
  match lensLoopGo cam.videoLensResp name cam.lensPromptYes retries 0 none,
      antiFlicker12Go cam.antiFlickerResp name retries 0 with
  | (none, _), _ => .error (.unboundLocalError "lens")
  | (some lens, prompted), some fps =>
    .ok { plan := hero12Plan lens fps, promptedLens := prompted }
  | (some _, _), none => .error (.unboundLocalError "fps")

/-- `_hero13_settings` (lines 541-597): as `_hero12_settings` but with the
HERO13 lookups and dictionary ("video_framing", "frame_rate", no
auto-power-down entry). -/
def _hero13_settings (name : String) (cam : Camera) (retries : Nat) :
    Except PyError HeroSettings :=
  match lensLoopGo cam.videoLensResp name cam.lensPromptYes retries 0 none,
      antiFlicker13Go cam.antiFlickerResp name retries 0 with
  | (none, _), _ => .error (.unboundLocalError "lens")
  | (some lens, prompted), some fr =>
    .ok { plan := hero13Plan lens fr, promptedLens := prompted }
  | (some _, _), none => .error (.unboundLocalError "frame_rate")

/-- Outcome of applying one plan entry (the inner `for i in
range(retries)` loop of lines 461-478): attempts issued, whether a write
succeeded, whether the exhaustion warning of lines 472-478 fired, and the
seconds slept between attempts (the write-retry loop has no sleep, so this
is always 0 by construction). -/
structure ApplyResult where
  setting : String
  attempts : Nat
  ok : Bool
  warned : Bool
  sleptSeconds : Nat
deriving DecidableEq, Repr

/-- Apply one setting of the plan with bounded immediate retries
(lines 461-478): for the "load_preset_group" key the write is
`load_preset_group`, otherwise `ble_setting.<key>.set`; either way the
response status is checked by `_check_setting_set_response`, with a
warning surfaced when the final attempt fails. -/
def applySetting (name : String) (cam : Camera) (retries : Nat) (key : String) :
    ApplyResult :=
  let r := setRetry
    (fun i => _check_setting_set_response (GoProResp.mk (cam.setResp key i) ()) key name i)
    retries
  { setting := key, attempts := r.1, ok := r.2,
    warned := !r.2 && retries != 0, sleptSeconds := 0 }

/-- The `for setting in settings:` loop of lines 460-478: every plan entry
is applied in plan order; a setting whose retries are exhausted is warned
about and the loop continues with the next entry. -/
def applyPlan (name : String) (cam : Camera) (retries : Nat)
    (plan : List (String × SettingValue)) : List ApplyResult :=
  plan.map (fun p => applySetting name cam retries p.1)

/-- Per-device record of one pass of `enforce_camera_settings`. -/
structure DeviceReport where
  presetAttempts : Nat
  presetOk : Bool
  plan : List (String × SettingValue)
  promptedLens : Bool
  applied : List ApplyResult
deriving DecidableEq, Repr

/-- Body of the per-device loop of `enforce_camera_settings` (lines
435-478): first the preset-group load with bounded retries, then the
model dispatch — `_hero13_settings`, `_hero12_settings`, or
`raise ValueError(f"Camera model {model} not supported!")` — then the
application of the resulting plan. -/
def enforceDevice (name : String) (cam : Camera) (retries : Nat) :
    Except PyError DeviceReport :=
  let preset := setRetry
    (fun i =>
      _check_setting_set_response (GoProResp.mk (cam.loadPresetResp i) ())
        "load_preset_group" name i)
    retries
  match
    (if cam.model = "HERO13 Black" then _hero13_settings name cam retries
     else if cam.model = "HERO12 Black" then _hero12_settings name cam retries
     else .error (.valueError cam.model)) with
  | .error e => .error e
  | .ok s =>
    .ok { presetAttempts := preset.1, presetOk := preset.2, plan := s.plan,
          promptedLens := s.promptedLens, applied := applyPlan name cam retries s.plan }

/-- `enforce_camera_settings` (lines 421-478): the `for name, cam in
connected_cameras.items()` loop; an exception from any device's body
propagates and aborts the remaining devices. -/
def enforce_camera_settings :
    List (String × Camera) → Nat → Except PyError (List (String × DeviceReport))
  | [], _ => .ok []
  | (name, cam) :: rest, retries =>
    match enforceDevice name cam retries with
    | .error e => .error e
    | .ok r =>
      match enforce_camera_settings rest retries with
      | .error e => .error e
      | .ok rs => .ok ((name, r) :: rs)

theorem setRetryGo_all_fail (ok : Nat → Bool) :
    ∀ (fuel i : Nat), (∀ j, i ≤ j → j < i + fuel → ok j = false) →
      setRetryGo ok fuel i = (i + fuel, false) := by
  intro fuel
  induction fuel with
  | zero => intro i _; simp [setRetryGo]
  | succ f ih =>
    intro i h
    have h0 : ok i = false := h i (Nat.le_refl i) (by omega)
    simp only [setRetryGo, h0, Bool.false_eq_true, if_false]
    rw [ih (i + 1) (fun j hj1 hj2 => h j (by omega) (by omega))]
    have heq : i + 1 + f = i + (f + 1) := by omega
    rw [heq]

theorem lensLoopGo_all_fail (resp : Nat → GoProResp VideoLens) (name : String)
    (yes : Bool) :
    ∀ (fuel i : Nat) (lens0 : Option VideoLens), 0 < fuel →
      (∀ j, i ≤ j → j < i + fuel → (resp j).status ≠ ErrorCode.SUCCESS) →
      lensLoopGo resp name yes fuel i lens0 = (some (resp (i + fuel - 1)).data, false) := by
  intro fuel
  induction fuel with
  | zero => intro i lens0 h _; exact absurd h (Nat.lt_irrefl 0)
  | succ f ih =>
    intro i lens0 _ h
    have hc : _check_setting_get_response (resp i) "Video_Lens" name i = false := by
      unfold _check_setting_get_response
      rw [if_pos (h i (Nat.le_refl i) (by omega))]
    simp only [lensLoopGo, hc, Bool.false_eq_true, if_false]
    cases f with
    | zero => simp [lensLoopGo]
    | succ f2 =>
      rw [ih (i + 1) (some (resp i).data) (by omega)
        (fun j hj1 hj2 => h j (by omega) (by omega))]
      have heq : i + 1 + (f2 + 1) - 1 = i + (f2 + 1 + 1) - 1 := by omega
      rw [heq]

/-! #### C1: unsupported model -/

/-- A camera whose model is neither supported string; every BLE call
succeeds. -/
def unsupportedCam : Camera :=
  { model := "HERO11 Black",
    loadPresetResp := fun _ => .SUCCESS,
    antiFlickerResp := fun _ => GoProResp.mk .SUCCESS .NTSC,
    videoLensResp := fun _ => GoProResp.mk .SUCCESS .LINEAR,
    lensPromptYes := false,
    setResp := fun _ _ => .SUCCESS }

/-- A well-behaved HERO13 camera; every BLE call succeeds. -/
def goodCam13 : Camera :=
  { model := "HERO13 Black",
    loadPresetResp := fun _ => .SUCCESS,
    antiFlickerResp := fun _ => GoProResp.mk .SUCCESS .NTSC,
    videoLensResp := fun _ => GoProResp.mk .SUCCESS .LINEAR,
    lensPromptYes := false,
    setResp := fun _ _ => .SUCCESS }

/-- Counterexample for C1 as stated: with the unsupported-model camera
first and a healthy HERO13 after it, `enforce_camera_settings` returns
the escaped `ValueError` — enforcement does not continue to the second
device and the exception is not contained. -/
theorem enforce_unsupported_model_escapes :
    enforce_camera_settings [("Cam1", unsupportedCam), ("Cam2", goodCam13)]
        enforceDefaultRetries =
      .error (.valueError "HERO11 Black") := rfl

/-- C1 (amended): a connected device whose model string is neither
"HERO13 Black" nor "HERO12 Black" makes `enforce_camera_settings` raise
`ValueError` at that device; the error propagates to the caller, so
enforcement is aborted for that device and for every remaining device in
the map (whatever follows). -/
theorem enforce_unsupported_model_aborts_all :
    ∀ (name : String) (cam : Camera) (retries : Nat) (rest : List (String × Camera)),
      cam.model ≠ "HERO13 Black" → cam.model ≠ "HERO12 Black" →
      enforce_camera_settings ((name, cam) :: rest) retries =
        .error (.valueError cam.model) := by
  intro name cam retries rest h13 h12
  have hdev : enforceDevice name cam retries = .error (.valueError cam.model) := by
    unfold enforceDevice
    rw [if_neg h13, if_neg h12]
  simp only [enforce_camera_settings, hdev]

/-- Witness for C1 (amended): the HERO11 camera alone, with a different
retry bound, still escapes with the ValueError. -/
theorem enforce_unsupported_model_aborts_all_witness :
    unsupportedCam.model ≠ "HERO13 Black" ∧
    enforce_camera_settings [("Solo", unsupportedCam)] 3 =
      .error (.valueError "HERO11 Black") :=
  ⟨by decide,
   enforce_unsupported_model_aborts_all "Solo" unsupportedCam 3 [] (by decide) (by decide)⟩

/-! #### C5: exhausted anti-flicker pre-read -/

/-- A HERO13 camera whose anti-flicker read always fails its status check
while the video-lens read succeeds with the default lens. -/
def afFailCam13 : Camera :=
  { model := "HERO13 Black",
    loadPresetResp := fun _ => .SUCCESS,
    antiFlickerResp := fun _ => GoProResp.mk .FAILURE .NTSC,
    videoLensResp := fun _ => GoProResp.mk .SUCCESS .LINEAR,
    lensPromptYes := false,
    setResp := fun _ _ => .SUCCESS }

/-- A HERO12 camera whose anti-flicker read always fails its status check
while the video-lens read succeeds with the default lens. -/
def afFailCam12 : Camera :=
  { model := "HERO12 Black",
    loadPresetResp := fun _ => .SUCCESS,
    antiFlickerResp := fun _ => GoProResp.mk .FAILURE .NUM_60HZ,
    videoLensResp := fun _ => GoProResp.mk .SUCCESS .LINEAR,
    lensPromptYes := false,
    setResp := fun _ _ => .SUCCESS }

/-- C5 evaluation at the failing input: when the anti-flicker pre-read
fails its status check on all 5 default retries, both settings builders
crash with `UnboundLocalError` (`frame_rate` / `fps` were never assigned
before the dictionary literal reads them), and `enforce_camera_settings`
propagates the exception instead of producing and applying a plan with a
conservative default. -/
theorem settings_pre_read_exhaustion_crashes :
    _hero13_settings "Cam1" afFailCam13 enforceDefaultRetries =
      .error (.unboundLocalError "frame_rate") ∧
    _hero12_settings "Cam2" afFailCam12 enforceDefaultRetries =
      .error (.unboundLocalError "fps") ∧
    enforce_camera_settings [("Cam1", afFailCam13)] enforceDefaultRetries =
      .error (.unboundLocalError "frame_rate") :=
  ⟨rfl, rfl, rfl⟩

/-! #### C8: bounded write retries, best-effort per setting -/

/-- C8: a plan entry whose writes return a non-success status on every
attempt is retried exactly `retries` times (default 5) with no sleep
between attempts, ends unsuccessful with the warning surfaced, and the
rest of the plan is still applied in order — the device's plan is not
aborted. -/
theorem write_retry_exhaustion_continues :
    ∀ (name : String) (cam : Camera) (retries : Nat) (s : String) (v : SettingValue)
      (pre post : List (String × SettingValue)),
      0 < retries →
      (∀ i, i < retries → cam.setResp s i ≠ ErrorCode.SUCCESS) →
      enforceDefaultRetries = 5 ∧
      applySetting name cam retries s =
        { setting := s, attempts := retries, ok := false, warned := true,
          sleptSeconds := 0 } ∧
      applyPlan name cam retries (pre ++ (s, v) :: post) =
        applyPlan name cam retries pre ++
          applySetting name cam retries s :: applyPlan name cam retries post := by
  intro name cam retries s v pre post hpos hfail
  have hok : ∀ j, j < retries →
      _check_setting_set_response (GoProResp.mk (cam.setResp s j) ()) s name j = false := by
    intro j hj
    unfold _check_setting_set_response
    rw [if_pos (hfail j hj)]
  refine ⟨rfl, ?_, ?_⟩
  · unfold applySetting setRetry
    rw [setRetryGo_all_fail _ retries 0 (fun j hj1 hj2 => hok j (by omega))]
    have h0 : (retries != 0) = true := by
      simp [Nat.pos_iff_ne_zero.mp hpos]
    simp [h0]
  · unfold applyPlan
    rw [List.map_append, List.map_cons]

/-- Camera whose "hypersmooth" writes always fail while everything else
succeeds. -/
def writeFailCam : Camera :=
  { model := "HERO13 Black",
    loadPresetResp := fun _ => .SUCCESS,
    antiFlickerResp := fun _ => GoProResp.mk .SUCCESS .NTSC,
    videoLensResp := fun _ => GoProResp.mk .SUCCESS .LINEAR,
    lensPromptYes := false,
    setResp := fun key _ => if key = "hypersmooth" then .FAILURE else .SUCCESS }

/-- Witness for C8: at the default bound of 5 the failing "hypersmooth"
entry shows exactly 5 attempts, no success, the warning, no sleep. -/
theorem write_retry_exhaustion_continues_witness :
    0 < 5 ∧
    applySetting "Cam1" writeFailCam 5 "hypersmooth" =
      { setting := "hypersmooth", attempts := 5, ok := false, warned := true,
        sleptSeconds := 0 } :=
  ⟨by decide,
   (write_retry_exhaustion_continues "Cam1" writeFailCam 5 "hypersmooth"
      SettingValue.hypersmoothOFF [] [] (by decide)
      (fun i _ h => ErrorCode.noConfusion h)).2.1⟩

/-! #### C10: lens variable assigned before the status check -/

/-- C10: when the video-lens pre-read fails its status check on every
retry while the anti-flicker pre-read succeeds at once, both builders
return a plan whose "video_lens" target is exactly the `.data` payload of
the last failed lens read — no default is substituted and the operator
prompt is never shown. -/
theorem lens_pre_read_failure_uses_last_data :
    ∀ (name : String) (cam12 cam13 : Camera) (retries : Nat),
      0 < retries →
      (∀ i, i < retries → (cam12.videoLensResp i).status ≠ ErrorCode.SUCCESS) →
      (cam12.antiFlickerResp 0).status = ErrorCode.SUCCESS →
      (cam12.antiFlickerResp 0).data = AntiFlicker.NUM_60HZ →
      (∀ i, i < retries → (cam13.videoLensResp i).status ≠ ErrorCode.SUCCESS) →
      (cam13.antiFlickerResp 0).status = ErrorCode.SUCCESS →
      (cam13.antiFlickerResp 0).data = AntiFlicker.NTSC →
      _hero12_settings name cam12 retries =
        .ok { plan := hero12Plan ((cam12.videoLensResp (retries - 1)).data)
                FramesPerSecond.NUM_30_0,
              promptedLens := false } ∧
      _hero13_settings name cam13 retries =
        .ok { plan := hero13Plan ((cam13.videoLensResp (retries - 1)).data)
                FrameRate.NUM_30_0,
              promptedLens := false } := by
  intro name cam12 cam13 retries hpos h12f h12s h12d h13f h13s h13d
  have hl12 := lensLoopGo_all_fail cam12.videoLensResp name cam12.lensPromptYes retries 0
    none hpos (fun j hj1 hj2 => h12f j (by omega))
  have hl13 := lensLoopGo_all_fail cam13.videoLensResp name cam13.lensPromptYes retries 0
    none hpos (fun j hj1 hj2 => h13f j (by omega))
  simp only [Nat.zero_add] at hl12 hl13
  constructor
  · have haf : antiFlicker12Go cam12.antiFlickerResp name retries 0 =
        some FramesPerSecond.NUM_30_0 := by
      cases retries with
      | zero => exact absurd hpos (Nat.lt_irrefl 0)
      | succ f =>
        have hc : _check_setting_get_response (cam12.antiFlickerResp 0)
            "Anti_Flicker" name 0 = true := by
          unfold _check_setting_get_response
          rw [if_neg (by simp [h12s])]
        simp only [antiFlicker12Go, hc, if_true, h12d]
    unfold _hero12_settings
    rw [hl12, haf]
  · have haf : antiFlicker13Go cam13.antiFlickerResp name retries 0 =
        some FrameRate.NUM_30_0 := by
      cases retries with
      | zero => exact absurd hpos (Nat.lt_irrefl 0)
      | succ f =>
        have hc : _check_setting_get_response (cam13.antiFlickerResp 0)
            "Anti_Flicker" name 0 = true := by
          unfold _check_setting_get_response
          rw [if_neg (by simp [h13s])]
        simp only [antiFlicker13Go, hc, if_true, h13d]
    unfold _hero13_settings
    rw [hl13, haf]

/-- HERO12 camera whose lens reads always fail with a non-LINEAR payload;
the operator would answer Yes if prompted. -/
def lensFailCam12 : Camera :=
  { model := "HERO12 Black",
    loadPresetResp := fun _ => .SUCCESS,
    antiFlickerResp := fun _ => GoProResp.mk .SUCCESS .NUM_60HZ,
    videoLensResp := fun _ => GoProResp.mk .FAILURE (.OTHER 4),
    lensPromptYes := true,
    setResp := fun _ _ => .SUCCESS }

/-- HERO13 camera whose lens reads always fail with a non-LINEAR payload;
the operator would answer Yes if prompted. -/
def lensFailCam13 : Camera :=
  { model := "HERO13 Black",
    loadPresetResp := fun _ => .SUCCESS,
    antiFlickerResp := fun _ => GoProResp.mk .SUCCESS .NTSC,
    videoLensResp := fun _ => GoProResp.mk .FAILURE (.OTHER 4),
    lensPromptYes := true,
    setResp := fun _ _ => .SUCCESS }

/-- Witness for C10: the applied plans carry the failed reads' non-LINEAR
payload as the video-lens target and the operator was never prompted. -/
theorem lens_pre_read_failure_uses_last_data_witness :
    _hero12_settings "Cam1" lensFailCam12 5 =
      .ok { plan := hero12Plan (VideoLens.OTHER 4) FramesPerSecond.NUM_30_0,
            promptedLens := false } ∧
    _hero13_settings "Cam1" lensFailCam13 5 =
      .ok { plan := hero13Plan (VideoLens.OTHER 4) FrameRate.NUM_30_0,
            promptedLens := false } :=
  lens_pre_read_failure_uses_last_data "Cam1" lensFailCam12 lensFailCam13 5
    (by decide) (fun i _ h => ErrorCode.noConfusion h) rfl rfl
    (fun i _ h => ErrorCode.noConfusion h) rfl rfl

end GoProSync
